import Mathlib

/-!
Verification development for the TIFF reader/writer glue of the `vireo`
repository (`src/imagecore/formats/internal/tiff.{h,cpp}`).

The development shallowly embeds the writer-side components the claims are
about:

* `ImageWriterTIFF::SeekableMemoryStorage` — a fixed-capacity in-memory
  byte buffer with a cursor (`m_UsedBytes`, inherited from `MemoryStorage`)
  and a written high-water mark (`m_WrittenSize`), supporting bounded
  `read` / `write` / `seek` / `tell` / `totalBytesWritten`
  (tiff.cpp lines 584–639).
* `determineTileSize` — tile-size validation and descending auto-search
  (tiff.cpp lines 324–343).  The C++ function takes the tile size by
  reference, so the embedding returns the pair (result, final value of the
  out-parameter).
* `ImageWriterTIFF::setWriteOptions` — write-option parsing
  (tiff.cpp lines 530–562).
* `ImageWriterTIFF::writeImage` — the encode orchestration control flow
  (tiff.cpp lines 345–486).  Calls into libtiff and into the caller's
  output `Storage` are represented by an oracle structure `TiffEngine`
  recording the return values those external calls produce; the embedding
  captures exactly the control flow of `writeImage` over those results.
* The incremental-writing stubs `writeRows` / `beginWrite` / `endWrite`
  (tiff.cpp lines 488–501).

Machine integers: the C++ code uses `uint64_t` for sizes/offsets and
`int64_t` for seek offsets.  Sizes are embedded as `Nat` and seek offsets
as `Int`; the `uint64_t` conversions and wrap-around additions that occur
in `seek` are made explicit via reduction modulo `2 ^ 64`.
-/

namespace Vireo

/-- Value of `UINT64_MAX`, the largest value representable in a `uint64_t`. -/
def U64_MAX : Nat := 2 ^ 64 - 1

/-- Modelled from the spec: `SafeUAdd` comes from
`imagecore/utils/securemath.h`, which is not under `src/`.  Spec §4.1
describes this arithmetic family as saturating ("Uses saturating
subtraction so that `cursor > mark` … yields zero bytes read, not
underflow/wrap"), so unsigned 64-bit addition saturates at `UINT64_MAX`. -/
def SafeUAdd (a b : Nat) : Nat := min (a + b) U64_MAX

/-- Modelled from the spec: `SafeUSub` from `imagecore/utils/securemath.h`
(not under `src/`); saturating unsigned subtraction, which on `Nat` is
truncated subtraction. -/
def SafeUSub (a b : Nat) : Nat := a - b

/-- State of an `ImageWriterTIFF::SeekableMemoryStorage` (tiff.h lines
92–114).  `m_Buffer`, `m_TotalBytes` (capacity) and `m_UsedBytes` (the
current pointer / cursor) are inherited from `MemoryStorage`;
`m_WrittenSize` is the written high-water mark added by the subclass. -/
structure SeekableMemoryStorage where
  m_Buffer : List Nat
  m_TotalBytes : Nat
  m_UsedBytes : Nat
  m_WrittenSize : Nat
deriving DecidableEq, Repr

/-- The three seek modes of `ImageWriterTIFF::SeekMode` (tiff.h 85–90). -/
inductive SeekMode where
  | kSeek_Set
  | kSeek_Current
  | kSeek_End
deriving DecidableEq, Repr

/-- C++ conversion of an `int64_t` value to `uint64_t`: reduction modulo
`2 ^ 64`. -/
def toU64 (x : Int) : Nat := (x % (2 ^ 64 : Int)).toNat

/-- C++ `uint64_t + int64_t` addition (the `int64_t` operand is converted
to `uint64_t` and the addition wraps modulo `2 ^ 64`). -/
def u64Add (a : Nat) (p : Int) : Nat := (((a : Int) + p) % (2 ^ 64 : Int)).toNat

/-- Modelled from the spec: `MemoryStorage::write` is declared in
`imagecore/formats/writer.h`, which is not under `src/`.  Per spec §4.1 it
"appends at `cursor`, fails (returns 0 progress) if `cursor + len(bytes)`
exceeds capacity; advances `cursor` by bytes actually written."  Returns
the byte count written and the new state. -/
def MemoryStorage.write (s : SeekableMemoryStorage) (data : List Nat) :
    Nat × SeekableMemoryStorage :=
  if s.m_UsedBytes + data.length > s.m_TotalBytes then (0, s)
  else (data.length,
    { s with
      m_Buffer := s.m_Buffer.take s.m_UsedBytes ++ data
        ++ s.m_Buffer.drop (s.m_UsedBytes + data.length)
      m_UsedBytes := s.m_UsedBytes + data.length })

/-- Embeds `ImageWriterTIFF::SeekableMemoryStorage::write` (tiff.cpp 584–591):
delegates to `MemoryStorage::write`, then raises `m_WrittenSize` to
`m_UsedBytes` when the cursor moved past it. -/
def SeekableMemoryStorage.write (s : SeekableMemoryStorage) (data : List Nat) :
    Nat × SeekableMemoryStorage :=
  let r := MemoryStorage.write s data
  (r.1,
   if r.2.m_UsedBytes > r.2.m_WrittenSize then
     { r.2 with m_WrittenSize := r.2.m_UsedBytes }
   else r.2)

/-- Embeds `ImageWriterTIFF::SeekableMemoryStorage::read` (tiff.cpp 593–604):
clamps the requested count against the buffer capacity `m_TotalBytes`
using the saturating arithmetic, copies that many bytes starting at the
cursor, and advances the cursor.  Returns (bytes read, the copied bytes,
new state). -/
def SeekableMemoryStorage.read (s : SeekableMemoryStorage) (numBytes : Nat) :
    Nat × List Nat × SeekableMemoryStorage :=
  let bytesToRead :=
    if SafeUAdd s.m_UsedBytes numBytes > s.m_TotalBytes then
      SafeUSub s.m_TotalBytes s.m_UsedBytes
    else numBytes
  if bytesToRead > 0 then
    (bytesToRead,
     (List.range bytesToRead).map (fun i => s.m_Buffer.getD (s.m_UsedBytes + i) 0),
     { s with m_UsedBytes := SafeUAdd s.m_UsedBytes bytesToRead })
  else (bytesToRead, [], s)

/-- Embeds `ImageWriterTIFF::SeekableMemoryStorage::totalBytesWritten`
(tiff.cpp 606–609). -/
def SeekableMemoryStorage.totalBytesWritten (s : SeekableMemoryStorage) : Nat :=
  s.m_WrittenSize

/-- Embeds `ImageWriterTIFF::SeekableMemoryStorage::seek` (tiff.cpp 611–634).
`pos` is an `int64_t`.  `kSeek_Current` / `kSeek_End` compute
`m_UsedBytes + pos` resp. `m_WrittenSize + pos` in `uint64_t` arithmetic
(wrap-around), refuse results above the capacity, and otherwise store the
sum.  `kSeek_Set` compares `pos` against `static_cast<int64_t>(m_TotalBytes)`
as signed integers and otherwise stores `pos` converted to `uint64_t`. -/
def SeekableMemoryStorage.seek (s : SeekableMemoryStorage) (pos : Int)
    (mode : SeekMode) : Bool × SeekableMemoryStorage :=
  match mode with
  | SeekMode.kSeek_Current =>
    if u64Add s.m_UsedBytes pos > s.m_TotalBytes then (false, s)
    else (true, { s with m_UsedBytes := u64Add s.m_UsedBytes pos })
  | SeekMode.kSeek_End =>
    if u64Add s.m_WrittenSize pos > s.m_TotalBytes then (false, s)
    else (true, { s with m_WrittenSize := u64Add s.m_WrittenSize pos })
  | SeekMode.kSeek_Set =>
    if pos > (s.m_TotalBytes : Int) then (false, s)
    else (true, { s with m_UsedBytes := toU64 pos })

/-- Embeds `ImageWriterTIFF::SeekableMemoryStorage::tell` (tiff.cpp 636–639). -/
def SeekableMemoryStorage.tell (s : SeekableMemoryStorage) : Nat :=
  s.m_UsedBytes

/-- The descending search loop of `determineTileSize` (tiff.cpp 335–339):
`for (ts = 256; ts >= 16; ts--) if (w % ts == 0 && h % ts == 0) return true;`.
The argument is the current value of the loop variable `ts`; on failure the
loop exits with `ts` decremented below 16, and the pair carries that final
out-parameter value. -/
def tileSearch (w h : Nat) : Nat → Bool × Nat
  | 0 => (false, 0)
  | ts + 1 =>
    if 16 ≤ ts + 1 then
      if w % (ts + 1) = 0 ∧ h % (ts + 1) = 0 then (true, ts + 1)
      else tileSearch w h ts
    else (false, ts + 1)

/-- Embeds `determineTileSize` (tiff.cpp 324–343).  The C++ signature is
`bool determineTileSize(unsigned int &ts, unsigned int w, unsigned int h)`;
since `ts` is an in/out reference, the embedding returns
(result, final value of `ts`). -/
def determineTileSize (ts imageWidth imageHeight : Nat) : Bool × Nat :=
  if ts ≠ 0 then
    if imageWidth % ts ≠ 0 ∨ imageHeight % ts ≠ 0 then (false, ts)
    else (true, ts)
  else tileSearch imageWidth imageHeight 256

/-- Constant `ImageWriterTIFF::kSupportedWriteOptions_Progressive` (tiff.h 76). -/
def kSupportedWriteOptions_Progressive : Nat := 0x200

/-- Constant `ImageWriterTIFF::kSupportedWriteOptions_TIFFTileSizeMask` (tiff.h 79):
bits 16–24 of the 32-bit write-options word. -/
def kSupportedWriteOptions_TIFFTileSizeMask : Nat := 0x1FF0000

/-- Embeds `ImageWriterTIFF::setWriteOptions` (tiff.cpp 530–562), restricted to
its state effect (the flag-validation loop only prints warnings).  The
tile size is extracted from bits 16–24; a nonzero value outside
`[16, 256]` is discarded (reset to auto) and the tile-size bits are
cleared from the stored options with `writeOptions & ~mask` in 32-bit
unsigned arithmetic.  Returns `(m_TileSize, m_WriteOptions)`. -/
def setWriteOptions (writeOptions : Nat) : Nat × Nat :=
  let tile_size := (writeOptions &&& kSupportedWriteOptions_TIFFTileSizeMask) >>> 16
  if tile_size ≠ 0 ∧ (tile_size < 16 ∨ tile_size > 256) then
    (0, writeOptions &&& ((2 ^ 32 - 1) - kSupportedWriteOptions_TIFFTileSizeMask))
  else
    (tile_size, writeOptions)

/-- Return values of the external calls `ImageWriterTIFF::writeImage`
makes (libtiff and the caller's output `Storage`); the codec engine is an
out-of-scope collaborator, so the embedding treats these as an oracle. -/
structure TiffEngine where
  /-- whether `TIFFClientOpen` returned a non-null handle (tiff.cpp 350–355). -/
  clientOpenOk : Bool
  /-- whether `sourceImage->asRGBA()` returned a non-null image (tiff.cpp 357–361). -/
  rgbaOk : Bool
  /-- the source color model is RGBA or RGBX (tiff.cpp 363–366). -/
  colorModelOk : Bool
  /-- return value of `TIFFWriteTile` for the tile at origin `(x, y)`
  (tiff.cpp 425). -/
  tileWriteRet : Nat → Nat → Int
  /-- return value of `TIFFTileSize` (tiff.cpp 426). -/
  tiffTileSize : Int
  /-- return value of `TIFFWriteScanline` for row `i` (tiff.cpp 456). -/
  scanlineRet : Nat → Int
  /-- whether `m_TempStorage->asBuffer(...)` succeeded (tiff.cpp 472). -/
  asBufferOk : Bool
  /-- result of `m_OutputStorage->write(buf, n)`: bytes accepted when `n` are
  requested (tiff.cpp 479). -/
  outWrite : Nat → Nat

/-- Observable outcome of one `ImageWriterTIFF::writeImage` call:
the boolean result, the value of the writer's `m_TileSize` member after
the call (it is passed to `determineTileSize` by reference), the tile
origins handed to `TIFFWriteTile`, the row indices handed to
`TIFFWriteScanline`, the number of per-tile/per-scanline warnings logged,
and the byte count requested from the output storage in the final bulk
copy (`none` when control never reaches that copy). -/
structure WriteOutcome where
  success : Bool
  tileSizeAfter : Nat
  emittedTiles : List (Nat × Nat)
  emittedRows : List Nat
  warnings : Nat
  finalCopyRequested : Option Nat
deriving Repr

/-- Values taken by a C++ loop `for (v = 0; v < limit; v += step)`
(`step > 0`). -/
def stepPositions (limit step : Nat) : List Nat :=
  (List.range ((limit + step - 1) / step)).map (· * step)

/-- Tile origins visited by the nested loops of tiff.cpp 409–431: outer
loop over `y`, inner loop over `x`. -/
def tileGrid (w h tw th : Nat) : List (Nat × Nat) :=
  (stepPositions h th).flatMap (fun y => (stepPositions w tw).map (fun x => (x, y)))

/-- The tail of `writeImage` (tiff.cpp 468–485): after `TIFFFlush`, fetch
the temp buffer with `asBuffer` (failure aborts), then bulk-copy exactly
`m_TempStorage->totalBytesWritten()` bytes to the output storage; any
mismatch between bytes requested and bytes accepted is a hard failure. -/
def writeImageFinish (ts : Nat) (tiles : List (Nat × Nat)) (rows : List Nat)
    (warns totalWritten : Nat) (e : TiffEngine) : WriteOutcome :=
  if e.asBufferOk = false then
    ⟨false, ts, tiles, rows, warns, none⟩
  else if e.outWrite totalWritten ≠ totalWritten then
    ⟨false, ts, tiles, rows, warns, some totalWritten⟩
  else
    ⟨true, ts, tiles, rows, warns, some totalWritten⟩

/-- Control flow of `ImageWriterTIFF::writeImage` (tiff.cpp 345–486) over
the engine oracle `e`.  `w`, `h` are the source image dimensions,
`m_TileSize` / `m_WriteOptions` the writer members set by
`setWriteOptions`, and `totalWritten` the value of
`m_TempStorage->totalBytesWritten()` when the final copy runs.  Pixel
movement (`copyRect`, channel packing) has no bearing on the outcome
fields and is not modelled; per-tile and per-scanline failures are
counted as warnings exactly where the source logs them. -/
def writeImage (w h m_TileSize m_WriteOptions totalWritten : Nat)
    (e : TiffEngine) : WriteOutcome :=
  if e.clientOpenOk = false then ⟨false, m_TileSize, [], [], 0, none⟩
  else if e.rgbaOk = false then ⟨false, m_TileSize, [], [], 0, none⟩
  else if e.colorModelOk = false then ⟨false, m_TileSize, [], [], 0, none⟩
  else
    let doTiling := m_WriteOptions &&& kSupportedWriteOptions_Progressive = 0
    if doTiling then
      match determineTileSize m_TileSize w h with
      | (false, ts2) => ⟨false, ts2, [], [], 0, none⟩
      | (true, ts2) =>
        let tiles := tileGrid w h ts2 ts2
        let warns := tiles.countP (fun p => !(e.tileWriteRet p.1 p.2 == e.tiffTileSize))
        writeImageFinish ts2 tiles [] warns totalWritten e
    else
      let rows := List.range h
      let warns := rows.countP (fun i => !(e.scanlineRet i == 1))
      writeImageFinish m_TileSize [] rows warns totalWritten e

/-- Embeds `ImageWriterTIFF::writeRows` (tiff.cpp 488–491): unconditionally 0.
The image pointer is abstracted as a `Nat` identifier, as nothing about
it is inspected. -/
def writeRows (_sourceImage _sourceRow _numRows : Nat) : Nat := 0

/-- Embeds `ImageWriterTIFF::beginWrite` (tiff.cpp 493–496): unconditionally
`false`. -/
def beginWrite (_width _height _colorModel : Nat) : Bool := false

/-- Embeds `ImageWriterTIFF::endWrite` (tiff.cpp 498–501): unconditionally
`false`. -/
def endWrite : Bool := false

/-- The state invariant of spec §3: the cursor and the written mark both
stay within the buffer capacity. -/
def Inv (s : SeekableMemoryStorage) : Prop :=
  s.m_UsedBytes ≤ s.m_TotalBytes ∧ s.m_WrittenSize ≤ s.m_TotalBytes

instance (s : SeekableMemoryStorage) : Decidable (Inv s) :=
  inferInstanceAs (Decidable (_ ∧ _))

/-- A concrete eight-byte storage with fresh cursor and mark, as produced
by `SeekableMemoryStorage(buffer, 8)` right after construction. -/
def store8 : SeekableMemoryStorage := ⟨List.replicate 8 7, 8, 0, 0⟩

/-- A concrete eight-byte storage whose cursor (3) and mark (2) have moved. -/
def store8b : SeekableMemoryStorage := ⟨List.replicate 8 0, 8, 3, 2⟩

/-- An engine oracle on which every external call succeeds: the handle
opens, the image is RGBA, every `TIFFWriteTile` reports the expected
size, every scanline write returns 1, `asBuffer` succeeds, and the output
storage accepts everything offered. -/
def okEngine : TiffEngine :=
  ⟨true, true, true, fun _ _ => 0, 0, fun _ => 1, true, fun n => n⟩

/-- Any successful exit of the search loop yields a divisor of both
dimensions lying in `[16, ts]`. -/
theorem tileSearch_sound (w h : Nat) :
    ∀ ts, (tileSearch w h ts).1 = true →
      16 ≤ (tileSearch w h ts).2 ∧ (tileSearch w h ts).2 ≤ ts ∧
      w % (tileSearch w h ts).2 = 0 ∧ h % (tileSearch w h ts).2 = 0 := by
  intro ts
  induction ts with
  | zero => simp [tileSearch]
  | succ n ih =>
    intro htrue
    by_cases h16 : 16 ≤ n + 1
    · by_cases hdiv : w % (n + 1) = 0 ∧ h % (n + 1) = 0
      · simp only [tileSearch, if_pos h16, if_pos hdiv]
        exact ⟨h16, Nat.le_refl _, hdiv.1, hdiv.2⟩
      · have heq : tileSearch w h (n + 1) = tileSearch w h n := by
          simp only [tileSearch, if_pos h16, if_neg hdiv]
        rw [heq] at htrue ⊢
        obtain ⟨a, b, c, d⟩ := ih htrue
        exact ⟨a, Nat.le_succ_of_le b, c, d⟩
    · simp [tileSearch, h16] at htrue

/-- If some value in `[16, ts]` divides both dimensions, the search loop
succeeds and returns a value at least as large. -/
theorem tileSearch_complete (w h : Nat) :
    ∀ ts t, 16 ≤ t → t ≤ ts → w % t = 0 → h % t = 0 →
      (tileSearch w h ts).1 = true ∧ t ≤ (tileSearch w h ts).2 := by
  intro ts
  induction ts with
  | zero => intro t h16 hle _ _; omega
  | succ n ih =>
    intro t h16 hle hw hh
    have h16n : 16 ≤ n + 1 := Nat.le_trans h16 hle
    by_cases hdiv : w % (n + 1) = 0 ∧ h % (n + 1) = 0
    · have heq : tileSearch w h (n + 1) = (true, n + 1) := by
        simp only [tileSearch, if_pos h16n, if_pos hdiv]
      rw [heq]
      exact ⟨rfl, hle⟩
    · have htn : t ≠ n + 1 := fun he => hdiv (he ▸ ⟨hw, hh⟩)
      have hle2 : t ≤ n := by omega
      simp only [tileSearch, if_pos h16n, if_neg hdiv]
      exact ih t h16 hle2 hw hh

/-- When the search loop fails after starting at or above 15, the loop
variable is left at 15 (the first value failing `ts >= 16`). -/
theorem tileSearch_fail_val (w h : Nat) :
    ∀ ts, 15 ≤ ts → (tileSearch w h ts).1 = false → (tileSearch w h ts).2 = 15 := by
  intro ts
  induction ts with
  | zero => intro h15; omega
  | succ n ih =>
    intro h15 hfalse
    by_cases h16 : 16 ≤ n + 1
    · by_cases hdiv : w % (n + 1) = 0 ∧ h % (n + 1) = 0
      · simp [tileSearch, h16, hdiv] at hfalse
      · have heq : tileSearch w h (n + 1) = tileSearch w h n := by
          simp only [tileSearch, if_pos h16, if_neg hdiv]
        rw [heq] at hfalse ⊢
        exact ih (by omega) hfalse
    · have hn : n + 1 = 15 := by omega
      have heq : tileSearch w h (n + 1) = (false, n + 1) := by
        simp only [tileSearch, if_neg h16]
      rw [heq]
      exact hn

/-- Field-level description of the `writeImage` tail (tiff.cpp 468–485). -/
theorem writeImageFinish_spec (ts : Nat) (tiles : List (Nat × Nat))
    (rows : List Nat) (warns tw : Nat) (e : TiffEngine) :
    (writeImageFinish ts tiles rows warns tw e).success
        = (e.asBufferOk && decide (e.outWrite tw = tw)) ∧
    (writeImageFinish ts tiles rows warns tw e).emittedTiles = tiles ∧
    (writeImageFinish ts tiles rows warns tw e).emittedRows = rows ∧
    (writeImageFinish ts tiles rows warns tw e).tileSizeAfter = ts ∧
    (writeImageFinish ts tiles rows warns tw e).warnings = warns ∧
    (writeImageFinish ts tiles rows warns tw e).finalCopyRequested
        = (if e.asBufferOk then some tw else none) := by
  cases hb : e.asBufferOk <;> by_cases hw : e.outWrite tw = tw <;>
    simp [writeImageFinish, hb, hw]

/-- Shape of `writeImage` when all gates pass, tiling is on, and the tile
size determination succeeds. -/
theorem writeImage_tiled_eq (w h mts wo tw : Nat) (e : TiffEngine)
    (h1 : e.clientOpenOk = true) (h2 : e.rgbaOk = true)
    (h3 : e.colorModelOk = true)
    (hwo : wo &&& kSupportedWriteOptions_Progressive = 0)
    {ts2 : Nat} (hdts : determineTileSize mts w h = (true, ts2)) :
    writeImage w h mts wo tw e =
      writeImageFinish ts2 (tileGrid w h ts2 ts2) []
        ((tileGrid w h ts2 ts2).countP
          (fun p => !(e.tileWriteRet p.1 p.2 == e.tiffTileSize))) tw e := by
  simp [writeImage, h1, h2, h3, hwo, hdts]

/-- Shape of `writeImage` when all gates pass and progressive (scanline)
mode is selected. -/
theorem writeImage_scanline_eq (w h mts wo tw : Nat) (e : TiffEngine)
    (h1 : e.clientOpenOk = true) (h2 : e.rgbaOk = true)
    (h3 : e.colorModelOk = true)
    (hwo : wo &&& kSupportedWriteOptions_Progressive ≠ 0) :
    writeImage w h mts wo tw e =
      writeImageFinish mts [] (List.range h)
        ((List.range h).countP (fun i => !(e.scanlineRet i == 1))) tw e := by
  simp [writeImage, h1, h2, h3, hwo]

/-- In tiling mode a failed tile-size determination makes `writeImage`
fail, for every engine oracle. -/
theorem writeImage_false_of_dts_false (w h mts wo tw : Nat) (e : TiffEngine)
    (hwo : wo &&& kSupportedWriteOptions_Progressive = 0)
    (hdts : (determineTileSize mts w h).1 = false) :
    (writeImage w h mts wo tw e).success = false := by
  rcases hd : determineTileSize mts w h with ⟨b, t⟩
  have hb : b = false := by rw [hd] at hdts; exact hdts
  subst hb
  cases h1 : e.clientOpenOk <;> cases h2 : e.rgbaOk <;> cases h3 : e.colorModelOk <;>
    simp [writeImage, h1, h2, h3, hwo, hd]

/-- The fields of the `writeImage` tail other than `warnings` do not
depend on the warning count, nor on any engine field other than
`asBufferOk` and `outWrite`. -/
theorem writeImageFinish_congr (ts : Nat) (tiles : List (Nat × Nat))
    (rows : List Nat) (w1 w2 tw : Nat) (e1 e2 : TiffEngine)
    (hab : e1.asBufferOk = e2.asBufferOk) (hout : e1.outWrite = e2.outWrite) :
    (writeImageFinish ts tiles rows w1 tw e1).success
        = (writeImageFinish ts tiles rows w2 tw e2).success ∧
    (writeImageFinish ts tiles rows w1 tw e1).emittedTiles
        = (writeImageFinish ts tiles rows w2 tw e2).emittedTiles ∧
    (writeImageFinish ts tiles rows w1 tw e1).emittedRows
        = (writeImageFinish ts tiles rows w2 tw e2).emittedRows ∧
    (writeImageFinish ts tiles rows w1 tw e1).finalCopyRequested
        = (writeImageFinish ts tiles rows w2 tw e2).finalCopyRequested := by
  unfold writeImageFinish
  rw [hab, hout]
  split_ifs <;> simp

/-- When no candidate in `[16, 256]` divides both dimensions, the
auto-search of `determineTileSize` reports failure. -/
theorem dts_auto_false (w h : Nat)
    (hnone : ∀ r, 16 ≤ r → r ≤ 256 → ¬(w % r = 0 ∧ h % r = 0)) :
    (determineTileSize 0 w h).1 = false := by
  have hd : determineTileSize 0 w h = tileSearch w h 256 := by
    simp [determineTileSize]
  rw [hd]
  cases hb : (tileSearch w h 256).1
  · rfl
  · obtain ⟨a, b, c, d⟩ := tileSearch_sound w h 256 hb
    exact absurd ⟨c, d⟩ (hnone _ a b)

/-- C10: the incremental-writing interface of the TIFF writer is a stub:
`beginWrite` always returns `false`, `writeRows` always returns 0 and
`endWrite` always returns `false`, regardless of arguments; only
`writeImage` performs encoding (nothing else in tiff.cpp emits data). -/
theorem incremental_writing_is_stub :
    (∀ img row n, writeRows img row n = 0) ∧
    (∀ w h cm, beginWrite w h cm = false) ∧
    endWrite = false :=
  ⟨fun _ _ _ => rfl, fun _ _ _ => rfl, rfl⟩

/-- C2: with the tile size unspecified (0), `determineTileSize` succeeds
exactly when some value in `[16, 256]` divides both dimensions, on success
the selected value is a common divisor in `[16, 256]` at least as large as
any other, and — being a pure function of `(width, height)` — the result
is deterministic. -/
theorem determineTileSize_auto_selects_largest (w h : Nat) :
    ((determineTileSize 0 w h).1 = true ↔
      ∃ ts, 16 ≤ ts ∧ ts ≤ 256 ∧ w % ts = 0 ∧ h % ts = 0) ∧
    ((determineTileSize 0 w h).1 = true →
      16 ≤ (determineTileSize 0 w h).2 ∧ (determineTileSize 0 w h).2 ≤ 256 ∧
      w % (determineTileSize 0 w h).2 = 0 ∧
      h % (determineTileSize 0 w h).2 = 0) ∧
    (∀ ts, 16 ≤ ts → ts ≤ 256 → w % ts = 0 → h % ts = 0 →
      ts ≤ (determineTileSize 0 w h).2) := by
  have hd : determineTileSize 0 w h = tileSearch w h 256 := by
    simp [determineTileSize]
  rw [hd]
  refine ⟨⟨fun htrue => ?_, fun ⟨ts, ha, hb, hc, he⟩ => ?_⟩, fun htrue => ?_,
    fun ts ha hb hc he => ?_⟩
  · obtain ⟨a, b, c, d⟩ := tileSearch_sound w h 256 htrue
    exact ⟨_, a, b, c, d⟩
  · exact (tileSearch_complete w h 256 ts ha hb hc he).1
  · obtain ⟨a, b, c, d⟩ := tileSearch_sound w h 256 htrue
    exact ⟨a, b, c, d⟩
  · exact (tileSearch_complete w h 256 ts ha hb hc he).2

/-- Witness for C2 at the 512×256 image: auto-selection succeeds and the
chosen tile size is at least 256 (hence exactly 256). -/
theorem determineTileSize_auto_selects_largest_witness :
    (determineTileSize 0 512 256).1 = true ∧
    256 ≤ (determineTileSize 0 512 256).2 :=
  ⟨(determineTileSize_auto_selects_largest 512 256).1.mpr
      ⟨256, by decide, by decide, by decide, by decide⟩,
   (determineTileSize_auto_selects_largest 512 256).2.2 256
      (by decide) (by decide) (by decide) (by decide)⟩

set_option maxRecDepth 8192 in
/-- Counterexample for C5: for a 257×257 image (257 is prime, so no value
in `[16, 256]` divides it) the auto-selection reports failure but does
have a side effect: the tile-size out-parameter — the writer's
`m_TileSize`, which was 0 before the call — is left at 15, the loop
counter's exit value. -/
theorem auto_tile_failure_side_effect_cex :
    determineTileSize 0 257 257 = (false, 15) ∧
    (writeImage 257 257 0 0 0 okEngine).success = false ∧
    (writeImage 257 257 0 0 0 okEngine).tileSizeAfter = 15 ∧
    (15 : Nat) ≠ 0 := by
  decide

/-- C5 amended: for every `(width, height)` with no common divisor in
`[16, 256]`, auto-selection reports failure and `writeImage` fails, but
not without side effects: the descending search loop runs `ts` itself
down, so the writer's stored tile size is left at 15 (the loop counter's
final value) instead of its prior value 0. -/
theorem auto_tile_failure_sets_fifteen (w h wo tw : Nat) (e : TiffEngine)
    (hnone : ∀ ts < 257, 16 ≤ ts → ¬(w % ts = 0 ∧ h % ts = 0))
    (h1 : e.clientOpenOk = true) (h2 : e.rgbaOk = true)
    (h3 : e.colorModelOk = true)
    (hwo : wo &&& kSupportedWriteOptions_Progressive = 0) :
    determineTileSize 0 w h = (false, 15) ∧
    (writeImage w h 0 wo tw e).success = false ∧
    (writeImage w h 0 wo tw e).tileSizeAfter = 15 := by
  have hd : determineTileSize 0 w h = tileSearch w h 256 := by
    simp [determineTileSize]
  have hfalse : (tileSearch w h 256).1 = false := by
    cases hb : (tileSearch w h 256).1
    · rfl
    · obtain ⟨a, b, c, d⟩ := tileSearch_sound w h 256 hb
      exact absurd ⟨c, d⟩ (hnone _ (by omega) a)
  have hval : (tileSearch w h 256).2 = 15 :=
    tileSearch_fail_val w h 256 (by omega) hfalse
  have hpair : determineTileSize 0 w h = (false, 15) := by
    rw [hd]
    rcases hts : tileSearch w h 256 with ⟨b, t⟩
    rw [hts] at hfalse hval
    simp only at hfalse hval
    rw [hfalse, hval]
  refine ⟨hpair, ?_, ?_⟩
  · exact writeImage_false_of_dts_false w h 0 wo tw e hwo (by rw [hpair])
  · simp [writeImage, h1, h2, h3, hwo, hpair]

set_option maxRecDepth 8192 in
/-- Witness for C5 at the 257×514 image with a benign engine. -/
theorem auto_tile_failure_sets_fifteen_witness :
    determineTileSize 0 257 514 = (false, 15) ∧
    (writeImage 257 514 0 0 3 okEngine).success = false ∧
    (writeImage 257 514 0 0 3 okEngine).tileSizeAfter = 15 :=
  auto_tile_failure_sets_fifteen 257 514 0 3 okEngine (by decide)
    rfl rfl rfl (by decide)

/-- Counterexample for C6: the 0×0 image is not rejected — auto
tile-size selection succeeds (0 is divisible by every candidate, so 256
is chosen) and with an engine that accepts everything `writeImage`
returns `true`, emitting zero tiles, rather than failing. -/
theorem zero_size_encode_succeeds_cex :
    determineTileSize 0 0 0 = (true, 256) ∧
    (writeImage 0 0 0 0 0 okEngine).success = true ∧
    (writeImage 0 0 0 0 0 okEngine).emittedTiles = [] := by
  decide

/-- C6 amended: zero-size images are NOT rejected — every tile-size
candidate divides 0, so a 0×0 image auto-selects 256, the tile loop
emits nothing and `writeImage` proceeds to the final copy, returning its
status; by contrast, images with a nonzero dimension smaller than the
minimum tile size 16, and images with a prime dimension larger than 256
(no valid auto tile size), do fail: `determineTileSize` reports failure
and `writeImage` returns `false` for them. -/
theorem degenerate_dims_amended (wo tw : Nat) (e : TiffEngine)
    (h1 : e.clientOpenOk = true) (h2 : e.rgbaOk = true)
    (h3 : e.colorModelOk = true)
    (hwo : wo &&& kSupportedWriteOptions_Progressive = 0) :
    determineTileSize 0 0 0 = (true, 256) ∧
    (writeImage 0 0 0 wo tw e).success
        = (e.asBufferOk && decide (e.outWrite tw = tw)) ∧
    (writeImage 0 0 0 wo tw e).emittedTiles = [] ∧
    (∀ w h, (0 < w ∧ w < 16) ∨ (0 < h ∧ h < 16) →
      (determineTileSize 0 w h).1 = false) ∧
    (∀ w h, (0 < w ∧ w < 16) ∨ (0 < h ∧ h < 16) →
      (writeImage w h 0 wo tw e).success = false) ∧
    (∀ w h, (Nat.Prime w ∧ 256 < w) ∨ (Nat.Prime h ∧ 256 < h) →
      (determineTileSize 0 w h).1 = false) ∧
    (∀ w h, (Nat.Prime w ∧ 256 < w) ∨ (Nat.Prime h ∧ 256 < h) →
      (writeImage w h 0 wo tw e).success = false) := by
  have hdts : determineTileSize 0 0 0 = (true, 256) := by decide
  have hsmall : ∀ w h : Nat, (0 < w ∧ w < 16) ∨ (0 < h ∧ h < 16) →
      (determineTileSize 0 w h).1 = false := by
    intro w h hcase
    refine dts_auto_false w h (fun r h16 h256 hdiv => ?_)
    rcases hcase with ⟨hw0, hw16⟩ | ⟨hh0, hh16⟩
    · have := Nat.le_of_dvd hw0 (Nat.dvd_of_mod_eq_zero hdiv.1)
      omega
    · have := Nat.le_of_dvd hh0 (Nat.dvd_of_mod_eq_zero hdiv.2)
      omega
  have hprime : ∀ w h : Nat, (Nat.Prime w ∧ 256 < w) ∨ (Nat.Prime h ∧ 256 < h) →
      (determineTileSize 0 w h).1 = false := by
    intro w h hcase
    refine dts_auto_false w h (fun r h16 h256 hdiv => ?_)
    rcases hcase with ⟨hp, hgt⟩ | ⟨hp, hgt⟩
    · rcases hp.eq_one_or_self_of_dvd r (Nat.dvd_of_mod_eq_zero hdiv.1) with h1r | h1r
      · omega
      · omega
    · rcases hp.eq_one_or_self_of_dvd r (Nat.dvd_of_mod_eq_zero hdiv.2) with h1r | h1r
      · omega
      · omega
  refine ⟨hdts, ?_, ?_, hsmall, ?_, hprime, ?_⟩
  · rw [writeImage_tiled_eq 0 0 0 wo tw e h1 h2 h3 hwo hdts]
    exact (writeImageFinish_spec 256 (tileGrid 0 0 256 256) [] _ tw e).1
  · rw [writeImage_tiled_eq 0 0 0 wo tw e h1 h2 h3 hwo hdts]
    have hsp := writeImageFinish_spec 256 (tileGrid 0 0 256 256) []
      ((tileGrid 0 0 256 256).countP
        (fun p => !(e.tileWriteRet p.1 p.2 == e.tiffTileSize))) tw e
    rw [hsp.2.1]
    decide
  · intro w h hcase
    exact writeImage_false_of_dts_false w h 0 wo tw e hwo (hsmall w h hcase)
  · intro w h hcase
    exact writeImage_false_of_dts_false w h 0 wo tw e hwo (hprime w h hcase)

/-- Witness for C6: zero-size encode succeeds with a benign engine, while
an 8×8 image and a 263×263 image (263 prime) fail auto-selection. -/
theorem degenerate_dims_amended_witness :
    (writeImage 0 0 0 0 7 okEngine).success = true ∧
    (determineTileSize 0 8 8).1 = false ∧
    (determineTileSize 0 263 263).1 = false := by
  have h := degenerate_dims_amended 0 7 okEngine rfl rfl rfl (by decide)
  refine ⟨?_, ?_, ?_⟩
  · rw [h.2.1]
    decide
  · exact h.2.2.2.1 8 8 (Or.inl ⟨by decide, by decide⟩)
  · exact h.2.2.2.2.2.1 263 263 (Or.inl ⟨by norm_num, by decide⟩)

/-- Counterexample for C7: a caller-specified tile size of 8 (nonzero,
below 16) does not make the encode fail — `setWriteOptions` discards it,
substituting auto mode (tile size 0), and a subsequent `writeImage` of a
256×256 image succeeds using the auto-selected size. -/
theorem oob_tile_size_substituted_cex :
    setWriteOptions (8 <<< 16) = (0, 0) ∧
    (writeImage 256 256 (setWriteOptions (8 <<< 16)).1
      (setWriteOptions (8 <<< 16)).2 5 okEngine).success = true := by
  decide

/-- C7 amended: a caller-specified nonzero tile size outside `[16, 256]`
is NOT a failure: `setWriteOptions` reports it, resets the stored tile
size to 0 (auto) and clears the tile-size bits, so the encode proceeds
with auto selection; a specified size inside `[16, 256]` that does not
evenly divide both dimensions does fail — `determineTileSize` rejects it
without altering it and `writeImage` returns `false`. -/
theorem tile_size_validation_amended (opts w h wo tw : Nat) (e : TiffEngine) :
    (((opts &&& kSupportedWriteOptions_TIFFTileSizeMask) >>> 16 ≠ 0 →
      ((opts &&& kSupportedWriteOptions_TIFFTileSizeMask) >>> 16 < 16 ∨
        256 < (opts &&& kSupportedWriteOptions_TIFFTileSizeMask) >>> 16) →
      (setWriteOptions opts).1 = 0) ∧
     (16 ≤ (opts &&& kSupportedWriteOptions_TIFFTileSizeMask) >>> 16 →
      (opts &&& kSupportedWriteOptions_TIFFTileSizeMask) >>> 16 ≤ 256 →
      (setWriteOptions opts).1
          = (opts &&& kSupportedWriteOptions_TIFFTileSizeMask) >>> 16)) ∧
    (∀ ts, 16 ≤ ts → ts ≤ 256 → (w % ts ≠ 0 ∨ h % ts ≠ 0) →
      determineTileSize ts w h = (false, ts) ∧
      (wo &&& kSupportedWriteOptions_Progressive = 0 →
        (writeImage w h ts wo tw e).success = false)) := by
  refine ⟨⟨fun hne hout => ?_, fun h16 h256 => ?_⟩, fun ts h16 h256 hndiv => ?_⟩
  · have hc : (opts &&& kSupportedWriteOptions_TIFFTileSizeMask) >>> 16 ≠ 0 ∧
        ((opts &&& kSupportedWriteOptions_TIFFTileSizeMask) >>> 16 < 16 ∨
         (opts &&& kSupportedWriteOptions_TIFFTileSizeMask) >>> 16 > 256) := by
      exact ⟨hne, by omega⟩
    simp only [setWriteOptions, if_pos hc]
  · have hc : ¬((opts &&& kSupportedWriteOptions_TIFFTileSizeMask) >>> 16 ≠ 0 ∧
        ((opts &&& kSupportedWriteOptions_TIFFTileSizeMask) >>> 16 < 16 ∨
         (opts &&& kSupportedWriteOptions_TIFFTileSizeMask) >>> 16 > 256)) := by
      omega
    simp only [setWriteOptions, if_neg hc]
  · have hdts : determineTileSize ts w h = (false, ts) := by
      have hne : ts ≠ 0 := by omega
      simp only [determineTileSize, if_pos hne, if_pos hndiv]
    exact ⟨hdts,
      fun hwo => writeImage_false_of_dts_false w h ts wo tw e hwo (by rw [hdts])⟩

/-- Witness for C7: a specified size of 300 is coerced to auto, and a
specified size of 100 on a 150×150 image fails the encode. -/
theorem tile_size_validation_amended_witness :
    (setWriteOptions (300 <<< 16)).1 = 0 ∧
    determineTileSize 100 150 150 = (false, 100) ∧
    (writeImage 150 150 100 0 9 okEngine).success = false := by
  have h := tile_size_validation_amended (300 <<< 16) 150 150 0 9 okEngine
  refine ⟨h.1.1 (by decide) (by decide), ?_, ?_⟩
  · exact (h.2 100 (by decide) (by decide) (by decide)).1
  · exact (h.2 100 (by decide) (by decide) (by decide)).2 (by decide)

/-- An engine like `okEngine` except that every `TIFFWriteTile` and
`TIFFWriteScanline` call reports a failing byte count. -/
def badTileEngine : TiffEngine :=
  { okEngine with
    tileWriteRet := fun _ _ => -1
    tiffTileSize := 99
    scanlineRet := fun _ => 0 }

/-- An engine like `okEngine` except that the output storage accepts no
bytes (a short write on the final bulk copy). -/
def shortWriteEngine : TiffEngine :=
  { okEngine with outWrite := (fun _ => 0) }

/-- C8: per-tile byte-count mismatches reported by `TIFFWriteTile` and
scanline failures from `TIFFWriteScanline` are logged and the emission
loop continues; they never by themselves change `writeImage`'s result.
Formally: two engines differing only in the per-tile and per-scanline
return values produce the same success flag, the same emitted tiles and
rows, and the same final-copy request; and in a successful tiled setup
every tile of the grid is handed to the engine, whatever it returns. -/
theorem per_element_failures_nonfatal (w h mts wo tw : Nat)
    (e1 e2 : TiffEngine)
    (hopen : e1.clientOpenOk = e2.clientOpenOk)
    (hrgba : e1.rgbaOk = e2.rgbaOk)
    (hcm : e1.colorModelOk = e2.colorModelOk)
    (hab : e1.asBufferOk = e2.asBufferOk)
    (hout : e1.outWrite = e2.outWrite) :
    (writeImage w h mts wo tw e1).success
        = (writeImage w h mts wo tw e2).success ∧
    (writeImage w h mts wo tw e1).emittedTiles
        = (writeImage w h mts wo tw e2).emittedTiles ∧
    (writeImage w h mts wo tw e1).emittedRows
        = (writeImage w h mts wo tw e2).emittedRows ∧
    (writeImage w h mts wo tw e1).finalCopyRequested
        = (writeImage w h mts wo tw e2).finalCopyRequested ∧
    (e1.clientOpenOk = true → e1.rgbaOk = true → e1.colorModelOk = true →
      wo &&& kSupportedWriteOptions_Progressive = 0 →
      ∀ ts2, determineTileSize mts w h = (true, ts2) →
        (writeImage w h mts wo tw e1).emittedTiles = tileGrid w h ts2 ts2) := by
  cases h1 : e1.clientOpenOk with
  | false =>
    have h1b : e2.clientOpenOk = false := by rw [← hopen]; exact h1
    simp [writeImage, h1, h1b]
  | true =>
    have h1b : e2.clientOpenOk = true := by rw [← hopen]; exact h1
    cases h2 : e1.rgbaOk with
    | false =>
      have h2b : e2.rgbaOk = false := by rw [← hrgba]; exact h2
      simp [writeImage, h1, h1b, h2, h2b]
    | true =>
      have h2b : e2.rgbaOk = true := by rw [← hrgba]; exact h2
      cases h3 : e1.colorModelOk with
      | false =>
        have h3b : e2.colorModelOk = false := by rw [← hcm]; exact h3
        simp [writeImage, h1, h1b, h2, h2b, h3, h3b]
      | true =>
        have h3b : e2.colorModelOk = true := by rw [← hcm]; exact h3
        by_cases hwo : wo &&& kSupportedWriteOptions_Progressive = 0
        · rcases hd : determineTileSize mts w h with ⟨b, t2⟩
          cases b with
          | false => simp [writeImage, h1, h1b, h2, h2b, h3, h3b, hwo, hd]
          | true =>
            have hA := writeImage_tiled_eq w h mts wo tw e1 h1 h2 h3 hwo hd
            have hB := writeImage_tiled_eq w h mts wo tw e2 h1b h2b h3b hwo hd
            rw [hA, hB]
            have hcg := writeImageFinish_congr t2 (tileGrid w h t2 t2) []
              ((tileGrid w h t2 t2).countP
                (fun p => !(e1.tileWriteRet p.1 p.2 == e1.tiffTileSize)))
              ((tileGrid w h t2 t2).countP
                (fun p => !(e2.tileWriteRet p.1 p.2 == e2.tiffTileSize)))
              tw e1 e2 hab hout
            refine ⟨hcg.1, hcg.2.1, hcg.2.2.1, hcg.2.2.2, ?_⟩
            intro _ _ _ _ ts2 hd2
            injection hd2 with hfst hsnd
            rw [← hsnd]
            exact (writeImageFinish_spec t2 (tileGrid w h t2 t2) [] _ tw e1).2.1
        · have hA := writeImage_scanline_eq w h mts wo tw e1 h1 h2 h3 hwo
          have hB := writeImage_scanline_eq w h mts wo tw e2 h1b h2b h3b hwo
          rw [hA, hB]
          have hcg := writeImageFinish_congr mts [] (List.range h)
            ((List.range h).countP (fun i => !(e1.scanlineRet i == 1)))
            ((List.range h).countP (fun i => !(e2.scanlineRet i == 1)))
            tw e1 e2 hab hout
          exact ⟨hcg.1, hcg.2.1, hcg.2.2.1, hcg.2.2.2,
            fun _ _ _ hwo0 _ _ => absurd hwo0 hwo⟩

/-- Witness for C8: an engine whose every per-tile write fails produces
the same success flag and the same emitted tiles as one where every
per-tile write succeeds, on a 512×512 tiled encode. -/
theorem per_element_failures_nonfatal_witness :
    (writeImage 512 512 0 0 4 okEngine).success
        = (writeImage 512 512 0 0 4 badTileEngine).success ∧
    (writeImage 512 512 0 0 4 okEngine).emittedTiles
        = (writeImage 512 512 0 0 4 badTileEngine).emittedTiles := by
  have h := per_element_failures_nonfatal 512 512 0 0 4 okEngine badTileEngine
    rfl rfl rfl rfl rfl
  exact ⟨h.1, h.2.1⟩

/-- C9: once the gates pass and tiling setup succeeds (or progressive
mode is selected), `writeImage` reaches the final bulk copy after
`TIFFFlush`: it requests exactly `totalBytesWritten()` bytes from the
caller's output storage in a single write, and the overall call succeeds
iff `asBuffer` succeeded and the output accepted exactly the requested
count — accepting fewer bytes makes `writeImage` return `false`. -/
theorem final_copy_exact_and_short_write_fails (w h mts wo tw : Nat)
    (e : TiffEngine) (h1 : e.clientOpenOk = true) (h2 : e.rgbaOk = true)
    (h3 : e.colorModelOk = true)
    (hgate : wo &&& kSupportedWriteOptions_Progressive ≠ 0 ∨
      (determineTileSize mts w h).1 = true) :
    (writeImage w h mts wo tw e).finalCopyRequested
        = (if e.asBufferOk then some tw else none) ∧
    ((writeImage w h mts wo tw e).success = true ↔
      (e.asBufferOk = true ∧ e.outWrite tw = tw)) := by
  have key : ∀ (ts : Nat) (tiles : List (Nat × Nat)) (rows : List Nat)
      (warns : Nat),
      (writeImageFinish ts tiles rows warns tw e).finalCopyRequested
          = (if e.asBufferOk then some tw else none) ∧
      ((writeImageFinish ts tiles rows warns tw e).success = true ↔
        (e.asBufferOk = true ∧ e.outWrite tw = tw)) := by
    intro ts tiles rows warns
    have hsp := writeImageFinish_spec ts tiles rows warns tw e
    refine ⟨hsp.2.2.2.2.2, ?_⟩
    rw [hsp.1]
    simp
  by_cases hwo : wo &&& kSupportedWriteOptions_Progressive = 0
  · rcases hgate with hg | hg
    · exact absurd hwo hg
    · rcases hd : determineTileSize mts w h with ⟨b, t2⟩
      have hb : b = true := by rw [hd] at hg; exact hg
      subst hb
      rw [writeImage_tiled_eq w h mts wo tw e h1 h2 h3 hwo hd]
      exact key _ _ _ _
  · rw [writeImage_scanline_eq w h mts wo tw e h1 h2 h3 hwo]
    exact key _ _ _ _

/-- Witness for C9: on a 32×32 image with specified tile size 32, the
final copy requests exactly the 11 bytes written, and with an output
storage that accepts nothing the call fails. -/
theorem final_copy_exact_and_short_write_fails_witness :
    (writeImage 32 32 32 0 11 okEngine).finalCopyRequested = some 11 ∧
    (writeImage 32 32 32 0 11 shortWriteEngine).success = false := by
  have ha := final_copy_exact_and_short_write_fails 32 32 32 0 11 okEngine
    rfl rfl rfl (Or.inr (by decide))
  have hb := final_copy_exact_and_short_write_fails 32 32 32 0 11
    shortWriteEngine rfl rfl rfl (Or.inr (by decide))
  refine ⟨by rw [ha.1]; rfl, ?_⟩
  cases hs : (writeImage 32 32 32 0 11 shortWriteEngine).success
  · rfl
  · exact absurd (hb.2.mp hs) (by decide)

/-- Counterexample for C1: on a fresh storage of capacity 8 with mark 0
and cursor 0, `read(4)` copies 4 bytes — the claimed count
`min(maxLen, mark - cursor)` is 0 — so bytes at offsets at and beyond the
mark (here offsets 0–3, all ≥ mark) are returned. -/
theorem read_returns_bytes_beyond_mark_cex :
    store8.m_WrittenSize = 0 ∧ store8.m_UsedBytes = 0 ∧
    store8.m_TotalBytes = 8 ∧
    (store8.read 4).1 = 4 ∧
    min 4 (store8.m_WrittenSize - store8.m_UsedBytes) = 0 ∧
    (store8.read 4).2.1 = [7, 7, 7, 7] := by
  decide

/-- C1 amended: `read(dest, maxLen)` copies exactly
`min(maxLen, capacity - cursor)` bytes — the clamp is against the buffer
capacity `m_TotalBytes`, NOT against the written mark, so bytes at
offsets in `[mark, capacity)` can be returned — advances the cursor by
the number of bytes copied, leaves mark, capacity and contents unchanged,
and uses saturating subtraction so that a cursor at or beyond the
capacity yields zero bytes read rather than an underflowed count. -/
theorem read_clamps_at_capacity_not_mark (s : SeekableMemoryStorage)
    (n : Nat) (hcap : s.m_TotalBytes < 2 ^ 64)
    (hn : s.m_UsedBytes + n < 2 ^ 64) :
    (s.read n).1 = min n (s.m_TotalBytes - s.m_UsedBytes) ∧
    (s.read n).2.2.m_UsedBytes = s.m_UsedBytes + (s.read n).1 ∧
    (s.read n).2.2.m_WrittenSize = s.m_WrittenSize ∧
    (s.read n).2.2.m_TotalBytes = s.m_TotalBytes ∧
    (s.read n).2.2.m_Buffer = s.m_Buffer ∧
    (s.read n).2.1 = (List.range (s.read n).1).map
      (fun i => s.m_Buffer.getD (s.m_UsedBytes + i) 0) ∧
    (s.m_UsedBytes ≤ s.m_TotalBytes →
      s.m_UsedBytes + (s.read n).1 ≤ s.m_TotalBytes) := by
  simp only [SeekableMemoryStorage.read, SafeUAdd, SafeUSub, U64_MAX]
  split_ifs with hgt hpos hpos2 <;>
    refine ⟨?_, ?_, ?_, ?_, ?_, ?_, ?_⟩ <;>
    simp <;> omega

/-- Witness for C1: reading 10 bytes from the concrete state with cursor
3 in a capacity-8 buffer returns `min 10 (8 - 3) = 5` bytes and moves the
cursor to 8. -/
theorem read_clamps_at_capacity_not_mark_witness :
    (store8b.read 10).1 = min 10 (store8b.m_TotalBytes - store8b.m_UsedBytes) ∧
    (store8b.read 10).2.2.m_UsedBytes = store8b.m_UsedBytes + (store8b.read 10).1 := by
  have h := read_clamps_at_capacity_not_mark store8b 10 (by decide) (by decide)
  exact ⟨h.1, h.2.1⟩

/-- Counterexample for C3: seeking to offset −1 in `Set` mode on the
capacity-8 storage is an offset ≤ capacity, but instead of setting the
cursor to the offset, the `int64_t` passes the signed bounds check and is
stored as an unsigned value: the call reports success and `tell()`
becomes `2^64 - 1`, far beyond the capacity — the cursor was mutated to
a value that is not the requested offset and violates the bounds. -/
theorem seek_set_negative_offset_cex :
    (store8b.seek (-1) SeekMode.kSeek_Set).1 = true ∧
    (store8b.seek (-1) SeekMode.kSeek_Set).2.tell = 2 ^ 64 - 1 ∧
    ¬(((store8b.seek (-1) SeekMode.kSeek_Set).2.tell : Int) = -1) ∧
    store8b.m_TotalBytes < (store8b.seek (-1) SeekMode.kSeek_Set).2.tell := by
  decide

/-- C3 amended: `seek(offset, Set)` sets the cursor to `offset` when
`0 ≤ offset ≤ capacity` and fails leaving the state unchanged when
`offset > capacity`; for a NEGATIVE offset, however, the signed bounds
check passes, the call succeeds, and the cursor becomes
`offset + 2^64` (the `int64_t` reinterpreted as `uint64_t`), exceeding
the capacity.  `seek(offset, Current)` adds `offset` to the cursor in
wrapping 64-bit arithmetic with the result bounded by the capacity,
failing without mutation otherwise; `seek(offset, End)` does the same to
the mark and never moves the cursor. -/
theorem seek_modes_amended (s : SeekableMemoryStorage) (pos : Int)
    (hcap : s.m_TotalBytes < 2 ^ 63) (hlow : -(2 ^ 63) ≤ pos) :
    ((0 ≤ pos → pos ≤ (s.m_TotalBytes : Int) →
        s.seek pos SeekMode.kSeek_Set
          = (true, { s with m_UsedBytes := pos.toNat })) ∧
     ((s.m_TotalBytes : Int) < pos →
        s.seek pos SeekMode.kSeek_Set = (false, s)) ∧
     (pos < 0 →
        (s.seek pos SeekMode.kSeek_Set).1 = true ∧
        (((s.seek pos SeekMode.kSeek_Set).2.m_UsedBytes : Int) = pos + 2 ^ 64) ∧
        s.m_TotalBytes < (s.seek pos SeekMode.kSeek_Set).2.m_UsedBytes)) ∧
    ((0 ≤ (s.m_UsedBytes : Int) + pos →
        (s.m_UsedBytes : Int) + pos ≤ (s.m_TotalBytes : Int) →
        s.seek pos SeekMode.kSeek_Current
          = (true, { s with m_UsedBytes := ((s.m_UsedBytes : Int) + pos).toNat })) ∧
     ((s.seek pos SeekMode.kSeek_Current).1 = false →
        (s.seek pos SeekMode.kSeek_Current).2 = s) ∧
     ((s.seek pos SeekMode.kSeek_Current).1 = true →
        (s.seek pos SeekMode.kSeek_Current).2.m_UsedBytes ≤ s.m_TotalBytes)) ∧
    ((s.seek pos SeekMode.kSeek_End).2.m_UsedBytes = s.m_UsedBytes ∧
     (0 ≤ (s.m_WrittenSize : Int) + pos →
        (s.m_WrittenSize : Int) + pos ≤ (s.m_TotalBytes : Int) →
        s.seek pos SeekMode.kSeek_End
          = (true, { s with m_WrittenSize := ((s.m_WrittenSize : Int) + pos).toNat })) ∧
     ((s.seek pos SeekMode.kSeek_End).1 = false →
        (s.seek pos SeekMode.kSeek_End).2 = s) ∧
     ((s.seek pos SeekMode.kSeek_End).1 = true →
        (s.seek pos SeekMode.kSeek_End).2.m_WrittenSize ≤ s.m_TotalBytes)) := by
  refine ⟨⟨?_, ?_, ?_⟩, ⟨?_, ?_, ?_⟩, ⟨?_, ?_, ?_, ?_⟩⟩
  · intro h0 hle
    have hng : ¬(pos > (s.m_TotalBytes : Int)) := not_lt.mpr hle
    have hmod : pos % (2 ^ 64 : Int) = pos := Int.emod_eq_of_lt h0 (by omega)
    simp only [SeekableMemoryStorage.seek, if_neg hng, toU64, hmod]
  · intro hgt
    simp only [SeekableMemoryStorage.seek, if_pos hgt]
  · intro hneg
    have hng : ¬(pos > (s.m_TotalBytes : Int)) := by omega
    have hmod : pos % (2 ^ 64 : Int) = pos + 2 ^ 64 := by omega
    simp only [SeekableMemoryStorage.seek, if_neg hng, toU64, hmod]
    refine ⟨trivial, ?_, ?_⟩
    · exact Int.toNat_of_nonneg (by omega)
    · have hcast : ((pos + 2 ^ 64).toNat : Int) = pos + 2 ^ 64 :=
        Int.toNat_of_nonneg (by omega)
      omega
  · intro h0 hle
    have hval : u64Add s.m_UsedBytes pos = ((s.m_UsedBytes : Int) + pos).toNat := by
      simp only [u64Add]
      rw [Int.emod_eq_of_lt h0 (by omega)]
    have hng : ¬(u64Add s.m_UsedBytes pos > s.m_TotalBytes) := by
      rw [hval]; omega
    simp only [SeekableMemoryStorage.seek, if_neg hng]
    rw [hval]
  · intro hfail
    by_cases hc : u64Add s.m_UsedBytes pos > s.m_TotalBytes
    · simp only [SeekableMemoryStorage.seek, if_pos hc]
    · simp [SeekableMemoryStorage.seek, hc] at hfail
  · intro hsucc
    by_cases hc : u64Add s.m_UsedBytes pos > s.m_TotalBytes
    · simp [SeekableMemoryStorage.seek, hc] at hsucc
    · simp only [SeekableMemoryStorage.seek, if_neg hc]
      exact Nat.not_lt.mp hc
  · by_cases hc : u64Add s.m_WrittenSize pos > s.m_TotalBytes <;>
      simp [SeekableMemoryStorage.seek, hc]
  · intro h0 hle
    have hval : u64Add s.m_WrittenSize pos = ((s.m_WrittenSize : Int) + pos).toNat := by
      simp only [u64Add]
      rw [Int.emod_eq_of_lt h0 (by omega)]
    have hng : ¬(u64Add s.m_WrittenSize pos > s.m_TotalBytes) := by
      rw [hval]; omega
    simp only [SeekableMemoryStorage.seek, if_neg hng]
    rw [hval]
  · intro hfail
    by_cases hc : u64Add s.m_WrittenSize pos > s.m_TotalBytes
    · simp only [SeekableMemoryStorage.seek, if_pos hc]
    · simp [SeekableMemoryStorage.seek, hc] at hfail
  · intro hsucc
    by_cases hc : u64Add s.m_WrittenSize pos > s.m_TotalBytes
    · simp [SeekableMemoryStorage.seek, hc] at hsucc
    · simp only [SeekableMemoryStorage.seek, if_neg hc]
      exact Nat.not_lt.mp hc

/-- Witness for C3: a `Set` seek to offset 5 in the capacity-8 storage
succeeds and stores 5, and a `Current` seek of −9 from cursor 3 fails
leaving the state unchanged. -/
theorem seek_modes_amended_witness :
    store8b.seek 5 SeekMode.kSeek_Set
      = (true, { store8b with m_UsedBytes := (5 : Int).toNat }) ∧
    (store8b.seek (-9) SeekMode.kSeek_Current).2 = store8b := by
  have ha := seek_modes_amended store8b 5 (by decide) (by decide)
  have hb := seek_modes_amended store8b (-9) (by decide) (by decide)
  exact ⟨ha.1.1 (by decide) (by decide), hb.2.1.2.1 (by decide)⟩

/-- Counterexample for C4: the fresh capacity-8 state satisfies the
invariant `cursor ≤ capacity ∧ mark ≤ capacity`, yet after the
successful operation `seek(-3, Set)` the cursor is `2^64 - 3`, so the
invariant is not preserved by every seek with an arbitrary `int64`
offset. -/
theorem storage_invariant_negative_set_cex :
    Inv store8 ∧
    (store8.seek (-3) SeekMode.kSeek_Set).1 = true ∧
    ¬ Inv (store8.seek (-3) SeekMode.kSeek_Set).2 := by
  decide

/-- C4 amended: for a state satisfying the invariant
`cursor ≤ capacity ∧ mark ≤ capacity`, the invariant is preserved by
`read`, by `write`, by `seek` in `Current` and `End` modes with any
offset, and by `seek` in `Set` mode with any NONNEGATIVE offset (`tell`
and `totalBytesWritten` do not mutate state at all); a `Set` seek with a
negative offset is the one operation that breaks it. -/
theorem storage_invariant_preserved_amended (s : SeekableMemoryStorage)
    (hInv : Inv s) (hcap : s.m_TotalBytes < 2 ^ 64) :
    (∀ n, Inv (s.read n).2.2) ∧
    (∀ data, Inv (s.write data).2) ∧
    (∀ pos : Int, Inv (s.seek pos SeekMode.kSeek_Current).2) ∧
    (∀ pos : Int, Inv (s.seek pos SeekMode.kSeek_End).2) ∧
    (∀ pos : Int, 0 ≤ pos → Inv (s.seek pos SeekMode.kSeek_Set).2) := by
  obtain ⟨hcur, hmark⟩ := hInv
  refine ⟨?_, ?_, ?_, ?_, ?_⟩
  · intro n
    simp only [SeekableMemoryStorage.read, SafeUAdd, SafeUSub, U64_MAX]
    split_ifs <;> exact ⟨by simp; omega, by simp; omega⟩
  · intro data
    simp only [SeekableMemoryStorage.write, MemoryStorage.write]
    split_ifs <;> exact ⟨by simp; omega, by simp; omega⟩
  · intro pos
    by_cases hc : u64Add s.m_UsedBytes pos > s.m_TotalBytes
    · have hq : s.seek pos SeekMode.kSeek_Current = (false, s) := by
        simp only [SeekableMemoryStorage.seek, if_pos hc]
      rw [hq]
      exact ⟨hcur, hmark⟩
    · have hq : s.seek pos SeekMode.kSeek_Current
          = (true, { s with m_UsedBytes := u64Add s.m_UsedBytes pos }) := by
        simp only [SeekableMemoryStorage.seek, if_neg hc]
      rw [hq]
      exact ⟨Nat.not_lt.mp hc, hmark⟩
  · intro pos
    by_cases hc : u64Add s.m_WrittenSize pos > s.m_TotalBytes
    · have hq : s.seek pos SeekMode.kSeek_End = (false, s) := by
        simp only [SeekableMemoryStorage.seek, if_pos hc]
      rw [hq]
      exact ⟨hcur, hmark⟩
    · have hq : s.seek pos SeekMode.kSeek_End
          = (true, { s with m_WrittenSize := u64Add s.m_WrittenSize pos }) := by
        simp only [SeekableMemoryStorage.seek, if_neg hc]
      rw [hq]
      exact ⟨hcur, Nat.not_lt.mp hc⟩
  · intro pos hpos0
    by_cases hc : pos > (s.m_TotalBytes : Int)
    · simp only [SeekableMemoryStorage.seek, if_pos hc]
      exact ⟨hcur, hmark⟩
    · have hmod : pos % (2 ^ 64 : Int) = pos :=
        Int.emod_eq_of_lt hpos0 (by omega)
      simp only [SeekableMemoryStorage.seek, if_neg hc, toU64, hmod]
      exact ⟨by simp; omega, by simp; omega⟩

/-- Witness for C4: the invariant holds after each operation on the
concrete state with cursor 3, mark 2 in a capacity-8 buffer. -/
theorem storage_invariant_preserved_amended_witness :
    Inv (store8b.read 5).2.2 ∧
    Inv (store8b.write [1, 2]).2 ∧
    Inv (store8b.seek (-2) SeekMode.kSeek_Current).2 ∧
    Inv (store8b.seek 4 SeekMode.kSeek_End).2 ∧
    Inv (store8b.seek 6 SeekMode.kSeek_Set).2 := by
  have h := storage_invariant_preserved_amended store8b (by decide) (by decide)
  exact ⟨h.1 5, h.2.1 [1, 2], h.2.2.1 (-2), h.2.2.2.1 4, h.2.2.2.2 6 (by decide)⟩

end Vireo
